import Mathlib

set_option maxHeartbeats 1000000

/-
Shallow embedding of the movie-explorer backend data-access layer
(backend/app/models/models.py, backend/app/crud/crud.py,
backend/app/crud/movie_crud.py, backend/app/schemas/schemas.py).

Tables are modelled as lists of rows in insertion order; the two
association tables movie_genres and movie_actors are lists of id pairs.
Dates and float ratings carry no arithmetic anywhere in the CRUD layer
(they are only stored and copied), so dates are modelled as abstract day
codes and ratings as rationals.
-/

/- Abstract day code standing for a datetime.date value. -/
abbrev DateVal := Nat

/- Stand-in for a Python float rating; only ever stored and copied. -/
abbrev RatingVal := Rat

/- Row of the genres table (models.py: Genre). name is declared unique. -/
structure GenreRow where
  id : Nat
  name : String
  description : Option String
deriving DecidableEq

/- Row of the actors table (models.py: Actor). -/
structure ActorRow where
  id : Nat
  name : String
  bio : Option String
  birth_date : Option DateVal
  photo_url : Option String
  nationality : Option String
deriving DecidableEq

/- Row of the directors table (models.py: Director). -/
structure DirectorRow where
  id : Nat
  name : String
  bio : Option String
  birth_date : Option DateVal
  photo_url : Option String
  nationality : Option String
deriving DecidableEq

/- Row of the movies table (models.py: Movie); scalar columns only, the
relationship edges live in the association lists of `DB`. -/
structure MovieRow where
  id : Nat
  title : String
  release_year : Int
  description : Option String
  poster_url : Option String
  rating : Option RatingVal
  runtime_minutes : Option Int
  director_id : Option Nat
deriving DecidableEq

/- Row of the reviews table (models.py: Review). -/
structure ReviewRow where
  id : Nat
  movie_id : Nat
  reviewer_name : String
  rating : RatingVal
  comment : Option String
  created_at : Option DateVal
deriving DecidableEq

/- The whole relational store: one list per table, in insertion order,
plus the two association tables and the autoincrement counters. -/
structure DB where
  movies : List MovieRow
  actors : List ActorRow
  directors : List DirectorRow
  genres : List GenreRow
  reviews : List ReviewRow
  movie_genres : List (Nat × Nat)
  movie_actors : List (Nat × Nat)
  next_movie_id : Nat
  next_actor_id : Nat
  next_director_id : Nat
  next_genre_id : Nat
  next_review_id : Nat
deriving DecidableEq

/- schemas.py: ActorCreate — name required, the rest optional (pydantic
fills omitted optionals with None). -/
structure ActorCreate where
  name : String
  bio : Option String := none
  birth_date : Option DateVal := none
  photo_url : Option String := none
  nationality : Option String := none

/- schemas.py: DirectorCreate. -/
structure DirectorCreate where
  name : String
  bio : Option String := none
  birth_date : Option DateVal := none
  photo_url : Option String := none
  nationality : Option String := none

/- schemas.py: GenreCreate. -/
structure GenreCreate where
  name : String
  description : Option String := none

/- schemas.py: ReviewCreate (created_at is not part of the create schema). -/
structure ReviewCreate where
  reviewer_name : String
  rating : RatingVal
  comment : Option String := none
  movie_id : Nat

/- schemas.py: MovieCreate. rating defaults to 0.0. -/
structure MovieCreate where
  title : String
  release_year : Int
  description : Option String := none
  poster_url : Option String := none
  rating : Option RatingVal := some 0
  runtime_minutes : Option Int := none
  director_id : Option Nat := none
  genre_ids : List Nat := []
  actor_ids : List Nat := []

/- schemas.py: MovieUpdate. The outer Option records whether the field was
explicitly present in the caller's payload (pydantic exclude_unset); for
nullable columns the inner Option is the value, possibly null. For
genre_ids and actor_ids the code tests `is not None`, so a null list and
an absent list behave identically and are both `none` here. -/
structure MovieUpdate where
  title : Option String := none
  release_year : Option Int := none
  description : Option (Option String) := none
  poster_url : Option (Option String) := none
  rating : Option (Option RatingVal) := none
  runtime_minutes : Option (Option Int) := none
  director_id : Option (Option Nat) := none
  genre_ids : Option (List Nat) := none
  actor_ids : Option (List Nat) := none

/- movie_crud.py MovieCRUD.get_movie: first row with the given primary key. -/
def get_movie (db : DB) (movie_id : Nat) : Option MovieRow :=
  db.movies.find? (fun m => m.id == movie_id)

/- movie_crud.py MovieCRUD.get_movies: offset/limit pagination. -/
def get_movies (db : DB) (skip : Nat := 0) (limit : Nat := 100) : List MovieRow :=
  (db.movies.drop skip).take limit

/- `db.query(Genre).filter(Genre.id.in_(ids)).all()`: the genre rows whose
id occurs in the requested list, in table order. -/
def resolvedGenres (db : DB) (ids : List Nat) : List GenreRow :=
  db.genres.filter (fun g => ids.contains g.id)

/- `db.query(Actor).filter(Actor.id.in_(ids)).all()`. -/
def resolvedActors (db : DB) (ids : List Nat) : List ActorRow :=
  db.actors.filter (fun a => ids.contains a.id)

/- movie_crud.py MovieCRUD.create_movie: insert scalar columns as given
(director_id raw, no existence check); if genre_ids is non-empty (Python
truthiness) attach the resolved genre rows, likewise actor_ids. -/
def create_movie (db : DB) (mc : MovieCreate) : MovieRow × DB :=
  let mid := db.next_movie_id
  let row : MovieRow :=
    { id := mid, title := mc.title, release_year := mc.release_year,
      description := mc.description, poster_url := mc.poster_url,
      rating := mc.rating, runtime_minutes := mc.runtime_minutes,
      director_id := mc.director_id }
  let gRows := if mc.genre_ids.isEmpty then [] else resolvedGenres db mc.genre_ids
  let aRows := if mc.actor_ids.isEmpty then [] else resolvedActors db mc.actor_ids
  (row,
    { db with
      movies := db.movies ++ [row],
      movie_genres := db.movie_genres ++ gRows.map (fun g => (mid, g.id)),
      movie_actors := db.movie_actors ++ aRows.map (fun a => (mid, a.id)),
      next_movie_id := mid + 1 })

/- The setattr loop of MovieCRUD.update_movie over the payload dict taken
with exclude_unset=True and the two id-list fields excluded: exactly the
scalar fields present in the payload are overwritten. -/
def applyMovieUpdate (mu : MovieUpdate) (m : MovieRow) : MovieRow :=
  { m with
    title := mu.title.getD m.title,
    release_year := mu.release_year.getD m.release_year,
    description := mu.description.getD m.description,
    poster_url := mu.poster_url.getD m.poster_url,
    rating := mu.rating.getD m.rating,
    runtime_minutes := mu.runtime_minutes.getD m.runtime_minutes,
    director_id := mu.director_id.getD m.director_id }

/- movie_crud.py MovieCRUD.update_movie: None when the id is absent;
otherwise sparse-patch the scalar columns, and when genre_ids (resp.
actor_ids) `is not None` replace that movie's association rows with the
resolved set. -/
def update_movie (db : DB) (movie_id : Nat) (mu : MovieUpdate) :
    Option MovieRow × DB :=
  match db.movies.find? (fun m => m.id == movie_id) with
  | none => (none, db)
  | some m =>
    let m' := applyMovieUpdate mu m
    let mg :=
      match mu.genre_ids with
      | none => db.movie_genres
      | some gids =>
        db.movie_genres.filter (fun p => !(p.1 == movie_id)) ++
          (resolvedGenres db gids).map (fun g => (movie_id, g.id))
    let ma :=
      match mu.actor_ids with
      | none => db.movie_actors
      | some aids =>
        db.movie_actors.filter (fun p => !(p.1 == movie_id)) ++
          (resolvedActors db aids).map (fun a => (movie_id, a.id))
    (some m',
      { db with
        movies := db.movies.map (fun r => if r.id == movie_id then m' else r),
        movie_genres := mg,
        movie_actors := ma })

/- movie_crud.py MovieCRUD.delete_movie: removing the Movie row cascades
to its Review rows (models.py: cascade all, delete-orphan) and removes its
association rows in movie_genres and movie_actors. -/
def delete_movie (db : DB) (movie_id : Nat) : Bool × DB :=
  match db.movies.find? (fun m => m.id == movie_id) with
  | none => (false, db)
  | some _ =>
    (true,
      { db with
        movies := db.movies.filter (fun m => !(m.id == movie_id)),
        reviews := db.reviews.filter (fun r => !(r.movie_id == movie_id)),
        movie_genres := db.movie_genres.filter (fun p => !(p.1 == movie_id)),
        movie_actors := db.movie_actors.filter (fun p => !(p.1 == movie_id)) })

/- Join `Movie.genres` then `.filter(Genre.id == g)`: the movie has an
association row to genre g and the genre row itself exists. With the
composite primary key on (movie_id, genre_id) the join yields at most one
row per movie. -/
def movieHasGenre (db : DB) (mid g : Nat) : Bool :=
  db.movie_genres.any (fun p => p.1 == mid && p.2 == g) &&
    db.genres.any (fun gr => gr.id == g)

/- Join `Movie.actors` then `.filter(Actor.id == a)`. -/
def movieHasActor (db : DB) (mid a : Nat) : Bool :=
  db.movie_actors.any (fun p => p.1 == mid && p.2 == a) &&
    db.actors.any (fun ar => ar.id == a)

/- movie_crud.py MovieCRUD.filter_movies. Each criterion is guarded by
Python truthiness (`if genre_id:`), so None and 0 both leave the query
unfiltered; successive `query.filter` calls conjoin their predicates. -/
def filter_movies (db : DB) (genre_id : Option Nat) (director_id : Option Nat)
    (release_year : Option Int) (actor_id : Option Nat)
    (skip : Nat := 0) (limit : Nat := 100) : List MovieRow :=
  ((db.movies.filter (fun m =>
      (match genre_id with
       | some g => if g == 0 then true else movieHasGenre db m.id g
       | none => true) &&
      (match director_id with
       | some d => if d == 0 then true else m.director_id == some d
       | none => true) &&
      (match release_year with
       | some y => if y == 0 then true else m.release_year == y
       | none => true) &&
      (match actor_id with
       | some a => if a == 0 then true else movieHasActor db m.id a
       | none => true))).drop skip).take limit

/- SQLAlchemy `column.ilike(term-wrapped-in-percents)` on a non-null
value: the case-folded needle occurs as a contiguous substring of the
case-folded haystack. An empty needle matches every string. -/
def ilikeContains (s term : String) : Bool :=
  decide ((term.data.map Char.toLower) <:+: (s.data.map Char.toLower))

/- movie_crud.py MovieCRUD.search_movies: title ILIKE OR description
ILIKE; a NULL description never matches. -/
def search_movies (db : DB) (search_term : String)
    (skip : Nat := 0) (limit : Nat := 100) : List MovieRow :=
  ((db.movies.filter (fun m =>
      ilikeContains m.title search_term ||
        (match m.description with
         | some d => ilikeContains d search_term
         | none => false))).drop skip).take limit

/- The genre ids currently associated to a given movie. -/
def movieGenreIds (db : DB) (mid : Nat) : List Nat :=
  (db.movie_genres.filter (fun p => p.1 == mid)).map (fun p => p.2)

/- The actor ids currently associated to a given movie. -/
def movieActorIds (db : DB) (mid : Nat) : List Nat :=
  (db.movie_actors.filter (fun p => p.1 == mid)).map (fun p => p.2)

/- crud.py ActorCRUD.get_actor. -/
def get_actor (db : DB) (actor_id : Nat) : Option ActorRow :=
  db.actors.find? (fun a => a.id == actor_id)

/- crud.py ActorCRUD.get_actors. -/
def get_actors (db : DB) (skip : Nat := 0) (limit : Nat := 100) : List ActorRow :=
  (db.actors.drop skip).take limit

/- crud.py ActorCRUD.create_actor: insert with a fresh generated id. -/
def create_actor (db : DB) (ac : ActorCreate) : ActorRow × DB :=
  let row : ActorRow :=
    { id := db.next_actor_id, name := ac.name, bio := ac.bio,
      birth_date := ac.birth_date, photo_url := ac.photo_url,
      nationality := ac.nationality }
  (row, { db with actors := db.actors ++ [row],
                  next_actor_id := db.next_actor_id + 1 })

/- crud.py ActorCRUD.update_actor: the setattr loop runs over
`actor.dict()` with no exclude_unset, so every schema field is written,
omitted payload fields included (their pydantic default, null). The id and
the movie associations are untouched. -/
def update_actor (db : DB) (actor_id : Nat) (ac : ActorCreate) :
    Option ActorRow × DB :=
  match db.actors.find? (fun a => a.id == actor_id) with
  | none => (none, db)
  | some a =>
    let a' : ActorRow :=
      { id := a.id, name := ac.name, bio := ac.bio,
        birth_date := ac.birth_date, photo_url := ac.photo_url,
        nationality := ac.nationality }
    (some a',
      { db with actors := db.actors.map (fun r => if r.id == actor_id then a' else r) })

/- crud.py ActorCRUD.delete_actor: removes the actor row; the
many-to-many association rows in movie_actors are cleaned up by the ORM.
No cascade into movies. -/
def delete_actor (db : DB) (actor_id : Nat) : Bool × DB :=
  match db.actors.find? (fun a => a.id == actor_id) with
  | none => (false, db)
  | some _ =>
    (true,
      { db with
        actors := db.actors.filter (fun a => !(a.id == actor_id)),
        movie_actors := db.movie_actors.filter (fun p => !(p.2 == actor_id)) })

/- The row stream of the join in ActorCRUD.filter_actors_by_genre before
DISTINCT: actors JOIN movie_actors JOIN movies JOIN movie_genres JOIN
genres, filtered to Genre.id == genre_id, projected on the actor row. One
output row per path through the join. -/
def actorGenreJoin (db : DB) (genre_id : Nat) : List ActorRow :=
  db.actors.flatMap (fun a =>
    (db.movie_actors.filter (fun ma => ma.2 == a.id)).flatMap (fun ma =>
      (db.movies.filter (fun m => m.id == ma.1)).flatMap (fun m =>
        (db.movie_genres.filter (fun mg => mg.1 == m.id)).flatMap (fun mg =>
          (db.genres.filter (fun g => g.id == mg.2 && g.id == genre_id)).map
            (fun _ => a)))))

/- crud.py ActorCRUD.filter_actors_by_genre: the join above with a
DISTINCT projection on Actor, then offset/limit. -/
def filter_actors_by_genre (db : DB) (genre_id : Nat)
    (skip : Nat := 0) (limit : Nat := 100) : List ActorRow :=
  (((actorGenreJoin db genre_id).dedup).drop skip).take limit

/- crud.py ActorCRUD.search_actors: name ILIKE, substring,
case-insensitive. -/
def search_actors (db : DB) (search_term : String)
    (skip : Nat := 0) (limit : Nat := 100) : List ActorRow :=
  ((db.actors.filter (fun a => ilikeContains a.name search_term)).drop skip).take limit

/- crud.py DirectorCRUD.get_director. -/
def get_director (db : DB) (director_id : Nat) : Option DirectorRow :=
  db.directors.find? (fun d => d.id == director_id)

/- crud.py DirectorCRUD.get_directors. -/
def get_directors (db : DB) (skip : Nat := 0) (limit : Nat := 100) : List DirectorRow :=
  (db.directors.drop skip).take limit

/- crud.py DirectorCRUD.create_director. -/
def create_director (db : DB) (dc : DirectorCreate) : DirectorRow × DB :=
  let row : DirectorRow :=
    { id := db.next_director_id, name := dc.name, bio := dc.bio,
      birth_date := dc.birth_date, photo_url := dc.photo_url,
      nationality := dc.nationality }
  (row, { db with directors := db.directors ++ [row],
                  next_director_id := db.next_director_id + 1 })

/- crud.py DirectorCRUD.update_director: full-field overwrite, as for
actors. -/
def update_director (db : DB) (director_id : Nat) (dc : DirectorCreate) :
    Option DirectorRow × DB :=
  match db.directors.find? (fun d => d.id == director_id) with
  | none => (none, db)
  | some d =>
    let d' : DirectorRow :=
      { id := d.id, name := dc.name, bio := dc.bio,
        birth_date := dc.birth_date, photo_url := dc.photo_url,
        nationality := dc.nationality }
    (some d',
      { db with directors := db.directors.map (fun r => if r.id == director_id then d' else r) })

/- crud.py DirectorCRUD.delete_director: removes the director row; the
ORM nullifies director_id on that director's movies (one-to-many with no
delete cascade), deleting nothing else. -/
def delete_director (db : DB) (director_id : Nat) : Bool × DB :=
  match db.directors.find? (fun d => d.id == director_id) with
  | none => (false, db)
  | some _ =>
    (true,
      { db with
        directors := db.directors.filter (fun d => !(d.id == director_id)),
        movies := db.movies.map (fun m =>
          if m.director_id == some director_id then { m with director_id := none } else m) })

/- crud.py DirectorCRUD.search_directors. -/
def search_directors (db : DB) (search_term : String)
    (skip : Nat := 0) (limit : Nat := 100) : List DirectorRow :=
  ((db.directors.filter (fun d => ilikeContains d.name search_term)).drop skip).take limit

/- crud.py GenreCRUD.get_genre. -/
def get_genre (db : DB) (genre_id : Nat) : Option GenreRow :=
  db.genres.find? (fun g => g.id == genre_id)

/- crud.py GenreCRUD.get_genres. -/
def get_genres (db : DB) (skip : Nat := 0) (limit : Nat := 100) : List GenreRow :=
  (db.genres.drop skip).take limit

/- crud.py GenreCRUD.create_genre. The commit hits the unique=True
constraint on genres.name declared in models.py; the CRUD layer does not
catch it, so a duplicate name surfaces as a storage error and nothing is
inserted. -/
def create_genre (db : DB) (g : GenreCreate) : Except String (GenreRow × DB) :=
  if db.genres.any (fun r => r.name == g.name) then
    .error "UNIQUE constraint failed: genres.name"
  else
    let row : GenreRow := { id := db.next_genre_id, name := g.name,
                            description := g.description }
    .ok (row, { db with genres := db.genres ++ [row],
                        next_genre_id := db.next_genre_id + 1 })

/- crud.py GenreCRUD.update_genre: full-field overwrite; renaming onto
another row's name trips the same unique constraint at commit. -/
def update_genre (db : DB) (genre_id : Nat) (g : GenreCreate) :
    Except String (Option GenreRow × DB) :=
  match db.genres.find? (fun r => r.id == genre_id) with
  | none => .ok (none, db)
  | some r =>
    if db.genres.any (fun r2 => !(r2.id == genre_id) && r2.name == g.name) then
      .error "UNIQUE constraint failed: genres.name"
    else
      let r' : GenreRow := { id := r.id, name := g.name,
                             description := g.description }
      .ok (some r',
        { db with genres := db.genres.map (fun x => if x.id == genre_id then r' else x) })

/- crud.py GenreCRUD.delete_genre: removes the genre row and its
movie_genres memberships, nothing else. -/
def delete_genre (db : DB) (genre_id : Nat) : Bool × DB :=
  match db.genres.find? (fun g => g.id == genre_id) with
  | none => (false, db)
  | some _ =>
    (true,
      { db with
        genres := db.genres.filter (fun g => !(g.id == genre_id)),
        movie_genres := db.movie_genres.filter (fun p => !(p.2 == genre_id)) })

/- crud.py ReviewCRUD.get_review. -/
def get_review (db : DB) (review_id : Nat) : Option ReviewRow :=
  db.reviews.find? (fun r => r.id == review_id)

/- crud.py ReviewCRUD.get_movie_reviews: reviews whose movie_id matches,
paginated; empty whether the movie has no reviews or does not exist. -/
def get_movie_reviews (db : DB) (movie_id : Nat)
    (skip : Nat := 0) (limit : Nat := 100) : List ReviewRow :=
  ((db.reviews.filter (fun r => r.movie_id == movie_id)).drop skip).take limit

/- crud.py ReviewCRUD.create_review: inserts unconditionally; movie_id is
stored raw with no existence check (SQLite foreign keys unenforced). -/
def create_review (db : DB) (rc : ReviewCreate) : ReviewRow × DB :=
  let row : ReviewRow :=
    { id := db.next_review_id, movie_id := rc.movie_id,
      reviewer_name := rc.reviewer_name, rating := rc.rating,
      comment := rc.comment, created_at := none }
  (row, { db with reviews := db.reviews ++ [row],
                  next_review_id := db.next_review_id + 1 })

/- crud.py ReviewCRUD.delete_review. -/
def delete_review (db : DB) (review_id : Nat) : Bool × DB :=
  match db.reviews.find? (fun r => r.id == review_id) with
  | none => (false, db)
  | some _ =>
    (true, { db with reviews := db.reviews.filter (fun r => !(r.id == review_id)) })

/- The pairwise-distinct-names invariant declared by unique=True on
Genre.name in models.py. -/
def GenreNamesUnique (db : DB) : Prop :=
  (db.genres.map (fun g => g.name)).Nodup

/- An empty store, as after create_tables on a fresh database. -/
def emptyDB : DB :=
  { movies := [], actors := [], directors := [], genres := [], reviews := [],
    movie_genres := [], movie_actors := [],
    next_movie_id := 1, next_actor_id := 1, next_director_id := 1,
    next_genre_id := 1, next_review_id := 1 }

/- A small populated store: two movies both tagged with genre 1, one
shared actor, one director, one review on movie 1. -/
def sampleDB : DB :=
  { movies := [{ id := 1, title := "Inception", release_year := 2010,
                 description := none, poster_url := none, rating := some 0,
                 runtime_minutes := none, director_id := some 1 },
               { id := 2, title := "Heat", release_year := 1995,
                 description := none, poster_url := none, rating := some 0,
                 runtime_minutes := none, director_id := none }],
    actors := [{ id := 1, name := "Leo", bio := none, birth_date := none,
                 photo_url := none, nationality := none }],
    directors := [{ id := 1, name := "Nolan", bio := none, birth_date := none,
                    photo_url := none, nationality := none }],
    genres := [{ id := 1, name := "Action", description := none },
               { id := 2, name := "Drama", description := none }],
    reviews := [{ id := 1, movie_id := 1, reviewer_name := "Ann", rating := 9,
                  comment := none, created_at := none }],
    movie_genres := [(1, 1), (2, 1)],
    movie_actors := [(1, 1), (2, 1)],
    next_movie_id := 3, next_actor_id := 2, next_director_id := 2,
    next_genre_id := 3, next_review_id := 2 }

/- A concrete sparse-patch payload: only title and genre_ids present. -/
def sampleMU : MovieUpdate := { title := some "Inception 2", genre_ids := some [2, 99] }

/- A concrete movie payload with a dangling director_id and partially
dangling genre and actor id lists. -/
def sampleMC : MovieCreate :=
  { title := "New", release_year := 2024, director_id := some 42,
    genre_ids := [1, 99], actor_ids := [1, 77] }

/- The store produced by successfully creating genre "Comedy" in sampleDB. -/
def comedyDB : DB :=
  { sampleDB with
    genres := sampleDB.genres ++ [⟨3, "Comedy", none⟩],
    next_genre_id := 4 }

/- Generic list facts used to reason about the row stores. -/

/- After all rows satisfying p were filtered out, find? p finds nothing. -/
theorem find?_filter_not {α : Type} (l : List α) (p : α → Bool) :
    (l.filter (fun a => !(p a))).find? p = none := by
  rw [List.find?_eq_none]
  intro x hx
  simpa using (List.mem_filter.mp hx).2

/- Appending a row with a fresh key: find? by that key returns the new row. -/
theorem find?_append_fresh {α : Type} (l : List α) (p : α → Bool)
    (h : ∀ a ∈ l, p a = false) (x : α) (hx : p x = true) :
    (l ++ [x]).find? p = some x := by
  rw [List.find?_append]
  have hnone : l.find? p = none := List.find?_eq_none.mpr (fun a ha => by simp [h a ha])
  rw [hnone]
  simp [List.find?_cons, hx]

/- Replacing the row found by p with x: find? p now returns x. -/
theorem find?_map_replace {α : Type} (l : List α) (p : α → Bool) (x : α)
    (hx : p x = true) (h : (l.find? p).isSome) :
    (l.map (fun r => if p r then x else r)).find? p = some x := by
  induction l with
  | nil => simp at h
  | cons a t ih =>
    by_cases hpa : p a = true
    · simp [List.find?_cons, hpa, hx]
    · have hfa : (if p a = true then x else a) = a := by simp [hpa]
      rw [List.map_cons, hfa, List.find?_cons_of_neg _ hpa]
      exact ih (by rwa [List.find?_cons_of_neg _ hpa] at h)

/- An empty search needle case-folds to the empty character list and is an
infix of every case-folded name. -/
theorem ilikeContains_empty (s : String) : ilikeContains s "" = true := by
  simp [ilikeContains]

/-- C10: searching with an empty term matches every row — for every store
state, search with the empty string on movies, actors, or directors
returns the same sequence as the paginated list operation, rather than an
empty sequence or an error. -/
theorem empty_search_matches_all (db : DB) (skip limit : Nat) :
    search_movies db "" skip limit = get_movies db skip limit ∧
    search_actors db "" skip limit = get_actors db skip limit ∧
    search_directors db "" skip limit = get_directors db skip limit := by
  refine ⟨?_, ?_, ?_⟩
  · unfold search_movies get_movies
    rw [List.filter_congr (fun m _ => ?_), List.filter_true]
    simp [ilikeContains_empty]
  · unfold search_actors get_actors
    rw [List.filter_congr (fun a _ => ?_), List.filter_true]
    simp [ilikeContains_empty]
  · unfold search_directors get_directors
    rw [List.filter_congr (fun d _ => ?_), List.filter_true]
    simp [ilikeContains_empty]

/-- C4: deleting an existing movie returns true, after which the movie is
gone, list_for_movie returns the empty sequence, all of that movie's
review rows are gone, and all of its genre and actor association rows are
removed; deleting a nonexistent movie id returns false and changes
nothing. -/
theorem movie_delete_cascades (db : DB) (mid skip limit : Nat) :
    ((get_movie db mid).isSome →
      (delete_movie db mid).1 = true ∧
      get_movie (delete_movie db mid).2 mid = none ∧
      get_movie_reviews (delete_movie db mid).2 mid skip limit = [] ∧
      (∀ r ∈ (delete_movie db mid).2.reviews, r.movie_id ≠ mid) ∧
      (∀ p ∈ (delete_movie db mid).2.movie_genres, p.1 ≠ mid) ∧
      (∀ p ∈ (delete_movie db mid).2.movie_actors, p.1 ≠ mid)) ∧
    (get_movie db mid = none → delete_movie db mid = (false, db)) := by
  unfold get_movie delete_movie get_movie_reviews
  cases hfind : db.movies.find? (fun m => m.id == mid) with
  | none => exact ⟨fun h => by simp at h, fun _ => rfl⟩
  | some m =>
    refine ⟨fun _ => ⟨rfl, find?_filter_not _ _, ?_, ?_, ?_, ?_⟩, fun h => by simp at h⟩
    · rw [List.filter_filter]
      have : (db.reviews.filter fun a => (a.movie_id == mid) && !(a.movie_id == mid)) = [] := by
        apply List.filter_eq_nil_iff.mpr
        intro r _
        simp
      rw [this]
      simp
    · intro r hr
      simpa using (List.mem_filter.mp hr).2
    · intro p hp
      simpa using (List.mem_filter.mp hp).2
    · intro p hp
      simpa using (List.mem_filter.mp hp).2

/-- C1: movie update is a sparse patch — for an existing movie id, only
scalar fields explicitly present in the payload are overwritten (absent
fields keep their stored values); if genre_ids is present (even as the
empty list) the genre set is replaced by the set of genres whose ids
resolve, and if it is absent the genre associations are unchanged; the
same replace-or-untouched policy holds for actor_ids. -/
theorem movie_update_is_sparse_patch (db : DB) (movie_id : Nat) (mu : MovieUpdate)
    (m : MovieRow) (h : get_movie db movie_id = some m) :
    (update_movie db movie_id mu).1 = some (applyMovieUpdate mu m) ∧
    get_movie (update_movie db movie_id mu).2 movie_id = some (applyMovieUpdate mu m) ∧
    (applyMovieUpdate mu m).title = mu.title.getD m.title ∧
    (applyMovieUpdate mu m).release_year = mu.release_year.getD m.release_year ∧
    (applyMovieUpdate mu m).description = mu.description.getD m.description ∧
    (applyMovieUpdate mu m).poster_url = mu.poster_url.getD m.poster_url ∧
    (applyMovieUpdate mu m).rating = mu.rating.getD m.rating ∧
    (applyMovieUpdate mu m).runtime_minutes = mu.runtime_minutes.getD m.runtime_minutes ∧
    (applyMovieUpdate mu m).director_id = mu.director_id.getD m.director_id ∧
    (∀ gids, mu.genre_ids = some gids →
      movieGenreIds (update_movie db movie_id mu).2 movie_id
        = (resolvedGenres db gids).map (fun g => g.id)) ∧
    (mu.genre_ids = none →
      (update_movie db movie_id mu).2.movie_genres = db.movie_genres) ∧
    (∀ aids, mu.actor_ids = some aids →
      movieActorIds (update_movie db movie_id mu).2 movie_id
        = (resolvedActors db aids).map (fun a => a.id)) ∧
    (mu.actor_ids = none →
      (update_movie db movie_id mu).2.movie_actors = db.movie_actors) := by
  unfold get_movie at h
  have hpm : (m.id == movie_id) = true := by simpa using List.find?_some h
  unfold update_movie
  rw [h]
  refine ⟨rfl, ?_, rfl, rfl, rfl, rfl, rfl, rfl, rfl, ?_, ?_, ?_, ?_⟩
  · exact find?_map_replace _ _ _ hpm (by rw [h]; rfl)
  · intro gids hg
    unfold movieGenreIds
    simp only [hg, List.filter_append, List.filter_filter, List.filter_map]
    have h1 : (db.movie_genres.filter fun p => (p.1 == movie_id) && !(p.1 == movie_id)) = [] :=
      List.filter_eq_nil_iff.mpr (fun p _ => by simp)
    rw [h1, List.nil_append]
    have h2 : ((fun p : Nat × Nat => p.1 == movie_id) ∘ fun g : GenreRow => (movie_id, g.id))
        = fun _ => true := by
      funext g; simp
    rw [h2, List.filter_true, List.map_map]
    rfl
  · intro h0
    simp only [h0]
  · intro aids ha
    unfold movieActorIds
    simp only [ha, List.filter_append, List.filter_filter, List.filter_map]
    have h1 : (db.movie_actors.filter fun p => (p.1 == movie_id) && !(p.1 == movie_id)) = [] :=
      List.filter_eq_nil_iff.mpr (fun p _ => by simp)
    rw [h1, List.nil_append]
    have h2 : ((fun p : Nat × Nat => p.1 == movie_id) ∘ fun a : ActorRow => (movie_id, a.id))
        = fun _ => true := by
      funext a; simp
    rw [h2, List.filter_true, List.map_map]
    rfl
  · intro h0
    simp only [h0]

/-- C2: for Actor, Director, and Genre, update on an existing id
overwrites every schema field with the caller-supplied representation —
fields the caller omitted carry their schema defaults (null) and
overwrite too — while the entity's relationships are left untouched;
update on a nonexistent id returns the not-found sentinel and changes
nothing. For Genre the write goes through whenever the new name does not
collide with a different genre row's name (a collision is refused by the
unique constraint, not silently applied). -/
theorem nonmovie_update_is_full_replace (db : DB) (aid did gid : Nat)
    (ac : ActorCreate) (dc : DirectorCreate) (gc : GenreCreate) :
    ((∀ a, get_actor db aid = some a →
        (update_actor db aid ac).1
            = some ⟨a.id, ac.name, ac.bio, ac.birth_date, ac.photo_url, ac.nationality⟩ ∧
        get_actor (update_actor db aid ac).2 aid
            = some ⟨a.id, ac.name, ac.bio, ac.birth_date, ac.photo_url, ac.nationality⟩ ∧
        (update_actor db aid ac).2.movie_actors = db.movie_actors) ∧
     (get_actor db aid = none → update_actor db aid ac = (none, db))) ∧
    ((∀ d, get_director db did = some d →
        (update_director db did dc).1
            = some ⟨d.id, dc.name, dc.bio, dc.birth_date, dc.photo_url, dc.nationality⟩ ∧
        get_director (update_director db did dc).2 did
            = some ⟨d.id, dc.name, dc.bio, dc.birth_date, dc.photo_url, dc.nationality⟩ ∧
        (update_director db did dc).2.movies = db.movies) ∧
     (get_director db did = none → update_director db did dc = (none, db))) ∧
    ((∀ g, get_genre db gid = some g →
        (∀ r ∈ db.genres, r.id ≠ gid → r.name ≠ gc.name) →
        ∃ db2, update_genre db gid gc = .ok (some ⟨g.id, gc.name, gc.description⟩, db2) ∧
          get_genre db2 gid = some ⟨g.id, gc.name, gc.description⟩ ∧
          db2.movie_genres = db.movie_genres) ∧
     (get_genre db gid = none → update_genre db gid gc = .ok (none, db))) := by
  refine ⟨⟨?_, ?_⟩, ⟨?_, ?_⟩, ⟨?_, ?_⟩⟩
  · intro a ha
    unfold get_actor at ha ⊢
    have hpa : (a.id == aid) = true := by simpa using List.find?_some ha
    unfold update_actor
    rw [ha]
    exact ⟨rfl, find?_map_replace _ _ _ hpa (by rw [ha]; rfl), rfl⟩
  · intro ha
    unfold get_actor at ha
    unfold update_actor
    rw [ha]
  · intro d hd
    unfold get_director at hd ⊢
    have hpd : (d.id == did) = true := by simpa using List.find?_some hd
    unfold update_director
    rw [hd]
    exact ⟨rfl, find?_map_replace _ _ _ hpd (by rw [hd]; rfl), rfl⟩
  · intro hd
    unfold get_director at hd
    unfold update_director
    rw [hd]
  · intro g hg hname
    unfold get_genre at hg
    have hpg : (g.id == gid) = true := by simpa using List.find?_some hg
    have hany : (db.genres.any fun r2 => !(r2.id == gid) && r2.name == gc.name) = false := by
      rw [List.any_eq_false]
      intro r hr
      by_cases hid : r.id = gid
      · simp [hid]
      · simp [hid, hname r hr hid]
    refine ⟨{ db with genres := db.genres.map (fun x => if x.id == gid then ⟨g.id, gc.name, gc.description⟩ else x) }, ?_, ?_, rfl⟩
    · unfold update_genre
      rw [hg]
      simp [hany]
    · unfold get_genre
      exact find?_map_replace _ _ _ hpg (by rw [hg]; rfl)
  · intro hg
    unfold get_genre at hg
    unfold update_genre
    rw [hg]

/-- C3 counterexample: the claim "for every supplied genre_id the result
contains only movies whose genre set contains that id" fails at the
concrete input genre_id = 0 — 0 is falsy in Python, so the criterion is
silently dropped and the result contains a movie whose genre set does not
contain 0. -/
theorem filter_movies_zero_genre_counterexample :
    ∃ m ∈ filter_movies sampleDB (some 0) none none none 0 100,
      movieHasGenre sampleDB m.id 0 = false ∧ ¬ (0 ∈ movieGenreIds sampleDB m.id) := by
  decide

/-- C3 amended: movie filter combines all provided criteria with logical
AND and each criterion is independently omittable, with the proviso that
an id supplied as 0 is falsy in Python and treated as an omitted
criterion: for every supplied nonzero genre_id the result contains only
movies whose genre set contains that id, and supplying two nonzero
criteria simultaneously (genre_id and release_year) returns exactly the
movies satisfying both. -/
theorem filter_movies_and_semantics (db : DB) (g : Nat) (y : Int) (skip limit : Nat)
    (hg : g ≠ 0) (hy : y ≠ 0) :
    (∀ m ∈ filter_movies db (some g) none none none skip limit,
        movieHasGenre db m.id g = true) ∧
    filter_movies db (some g) none (some y) none 0 db.movies.length
      = db.movies.filter (fun m => movieHasGenre db m.id g && m.release_year == y) := by
  have hgf : (g == 0) = false := by simpa using hg
  have hyf : (y == 0) = false := by simpa using hy
  constructor
  · intro m hm
    unfold filter_movies at hm
    have hm2 := List.take_subset _ _ hm
    have hm3 := List.drop_subset _ _ hm2
    have hm4 := List.mem_filter.mp hm3
    simpa [hgf] using hm4.2
  · unfold filter_movies
    rw [List.drop_zero, List.take_of_length_le (List.length_filter_le _ _)]
    apply List.filter_congr
    intro m _
    simp [hgf, hyf]

/-- C5: filter_by_genre on actors returns exactly the actors who appear
in at least one movie tagged with the given genre, and deduplicates: an
actor reached through several movies of that genre occurs exactly once in
the result sequence. -/
theorem filter_actors_by_genre_dedup (db : DB) (gid limit : Nat)
    (h : (actorGenreJoin db gid).dedup.length ≤ limit) :
    (∀ x, x ∈ filter_actors_by_genre db gid 0 limit ↔
      (x ∈ db.actors ∧ ∃ ma ∈ db.movie_actors, ma.2 = x.id ∧
        ∃ m ∈ db.movies, m.id = ma.1 ∧
          ∃ mg ∈ db.movie_genres, mg.1 = m.id ∧
            ∃ g ∈ db.genres, g.id = mg.2 ∧ g.id = gid)) ∧
    (∀ x ∈ filter_actors_by_genre db gid 0 limit,
      (filter_actors_by_genre db gid 0 limit).count x = 1) := by
  have hres : filter_actors_by_genre db gid 0 limit = (actorGenreJoin db gid).dedup := by
    unfold filter_actors_by_genre
    rw [List.drop_zero, List.take_of_length_le h]
  have hjoin : ∀ x, x ∈ actorGenreJoin db gid ↔
      (x ∈ db.actors ∧ ∃ ma ∈ db.movie_actors, ma.2 = x.id ∧
        ∃ m ∈ db.movies, m.id = ma.1 ∧
          ∃ mg ∈ db.movie_genres, mg.1 = m.id ∧
            ∃ g ∈ db.genres, g.id = mg.2 ∧ g.id = gid) := by
    intro x
    unfold actorGenreJoin
    constructor
    · intro hx
      simp only [List.mem_flatMap, List.mem_filter, List.mem_map, Bool.and_eq_true,
        beq_iff_eq] at hx
      obtain ⟨a, ha, ma, ⟨hma, hma2⟩, m, ⟨hm, hm2⟩, mg, ⟨hmg, hmg2⟩, g, ⟨hg, hg2, hg3⟩, hxa⟩ := hx
      subst hxa
      exact ⟨ha, ma, hma, hma2, m, hm, hm2, mg, hmg, hmg2, g, hg, hg2, hg3⟩
    · rintro ⟨ha, ma, hma, hma2, m, hm, hm2, mg, hmg, hmg2, g, hg, hg2, hg3⟩
      simp only [List.mem_flatMap, List.mem_filter, List.mem_map, Bool.and_eq_true,
        beq_iff_eq]
      exact ⟨x, ha, ma, ⟨hma, hma2⟩, m, ⟨hm, hm2⟩, mg, ⟨hmg, hmg2⟩, g, ⟨hg, hg2, hg3⟩, rfl⟩
  constructor
  · intro x
    rw [hres, List.mem_dedup]
    exact hjoin x
  · intro x hx
    rw [hres] at hx ⊢
    rw [List.count_dedup]
    simp [List.mem_dedup.mp hx]

/-- C6: movie create never errors on dangling references: for every
input, genre_ids and actor_ids that do not resolve to existing rows are
silently ignored — the association rows written are exactly those of the
resolved rows, with no error raised — and director_id, if present, is
stored as the raw foreign key with no existence check, so a dangling
director_id is accepted. -/
theorem movie_create_accepts_dangling_refs (db : DB) (mc : MovieCreate)
    (hm : ∀ m ∈ db.movies, m.id ≠ db.next_movie_id)
    (hg : ∀ p ∈ db.movie_genres, p.1 ≠ db.next_movie_id)
    (ha : ∀ p ∈ db.movie_actors, p.1 ≠ db.next_movie_id) :
    (create_movie db mc).1.director_id = mc.director_id ∧
    get_movie (create_movie db mc).2 db.next_movie_id = some (create_movie db mc).1 ∧
    movieGenreIds (create_movie db mc).2 db.next_movie_id
      = (resolvedGenres db mc.genre_ids).map (fun g => g.id) ∧
    movieActorIds (create_movie db mc).2 db.next_movie_id
      = (resolvedActors db mc.actor_ids).map (fun a => a.id) := by
  have hnil : ∀ (l : List (Nat × Nat)), (∀ p ∈ l, p.1 ≠ db.next_movie_id) →
      (l.filter (fun p => p.1 == db.next_movie_id)) = [] := fun l hl =>
    List.filter_eq_nil_iff.mpr (fun p hp => by simp [hl p hp])
  refine ⟨rfl, ?_, ?_, ?_⟩
  · unfold get_movie create_movie
    apply find?_append_fresh
    · intro m hmem
      simp [hm m hmem]
    · simp
  · simp only [movieGenreIds, create_movie]
    rw [List.filter_append, hnil _ hg, List.nil_append]
    by_cases hge : mc.genre_ids.isEmpty
    · rw [if_pos hge]
      have he : mc.genre_ids = [] := List.isEmpty_iff.mp hge
      simp [he, resolvedGenres]
    · rw [if_neg hge, List.filter_map]
      have h2 : ((fun p : Nat × Nat => p.1 == db.next_movie_id) ∘
          fun g : GenreRow => (db.next_movie_id, g.id)) = fun _ => true := by
        funext g; simp
      rw [h2, List.filter_true, List.map_map]
      rfl
  · simp only [movieActorIds, create_movie]
    rw [List.filter_append, hnil _ ha, List.nil_append]
    by_cases hae : mc.actor_ids.isEmpty
    · rw [if_pos hae]
      have he : mc.actor_ids = [] := List.isEmpty_iff.mp hae
      simp [he, resolvedActors]
    · rw [if_neg hae, List.filter_map]
      have h2 : ((fun p : Nat × Nat => p.1 == db.next_movie_id) ∘
          fun a : ActorRow => (db.next_movie_id, a.id)) = fun _ => true := by
        funext a; simp
      rw [h2, List.filter_true, List.map_map]
      rfl

/-- C7: create-then-get round trip for every entity type: create assigns
the generated id and returns the persisted entity, and a subsequent get
on the returned id yields an entity equal in every user-supplied field to
the input, with relationships empty/default (for a movie, the association
rows are exactly those resolved from the payload — empty when the payload
lists are empty; created_at of a new review defaults to null). -/
theorem create_then_get_roundtrip (db : DB) (ac : ActorCreate) (dc : DirectorCreate)
    (gc : GenreCreate) (rc : ReviewCreate) (mc : MovieCreate) :
    ((∀ a ∈ db.actors, a.id ≠ db.next_actor_id) →
      (∀ p ∈ db.movie_actors, p.2 ≠ db.next_actor_id) →
      get_actor (create_actor db ac).2 (create_actor db ac).1.id = some (create_actor db ac).1 ∧
      (create_actor db ac).1
        = ⟨db.next_actor_id, ac.name, ac.bio, ac.birth_date, ac.photo_url, ac.nationality⟩ ∧
      (create_actor db ac).2.movie_actors.filter (fun p => p.2 == (create_actor db ac).1.id) = []) ∧
    ((∀ d ∈ db.directors, d.id ≠ db.next_director_id) →
      (∀ m ∈ db.movies, m.director_id ≠ some db.next_director_id) →
      get_director (create_director db dc).2 (create_director db dc).1.id
        = some (create_director db dc).1 ∧
      (create_director db dc).1
        = ⟨db.next_director_id, dc.name, dc.bio, dc.birth_date, dc.photo_url, dc.nationality⟩ ∧
      (create_director db dc).2.movies.filter
        (fun m => m.director_id == some (create_director db dc).1.id) = []) ∧
    ((∀ r ∈ db.genres, r.id ≠ db.next_genre_id) →
      (∀ r ∈ db.genres, r.name ≠ gc.name) →
      (∀ p ∈ db.movie_genres, p.2 ≠ db.next_genre_id) →
      ∃ db2, create_genre db gc = .ok (⟨db.next_genre_id, gc.name, gc.description⟩, db2) ∧
        get_genre db2 db.next_genre_id = some ⟨db.next_genre_id, gc.name, gc.description⟩ ∧
        db2.movie_genres.filter (fun p => p.2 == db.next_genre_id) = []) ∧
    ((∀ r ∈ db.reviews, r.id ≠ db.next_review_id) →
      get_review (create_review db rc).2 (create_review db rc).1.id
        = some (create_review db rc).1 ∧
      (create_review db rc).1
        = ⟨db.next_review_id, rc.movie_id, rc.reviewer_name, rc.rating, rc.comment, none⟩) ∧
    ((∀ m ∈ db.movies, m.id ≠ db.next_movie_id) →
      (∀ p ∈ db.movie_genres, p.1 ≠ db.next_movie_id) →
      (∀ p ∈ db.movie_actors, p.1 ≠ db.next_movie_id) →
      get_movie (create_movie db mc).2 (create_movie db mc).1.id = some (create_movie db mc).1 ∧
      (create_movie db mc).1
        = ⟨db.next_movie_id, mc.title, mc.release_year, mc.description, mc.poster_url,
           mc.rating, mc.runtime_minutes, mc.director_id⟩ ∧
      (mc.genre_ids = [] → movieGenreIds (create_movie db mc).2 db.next_movie_id = []) ∧
      (mc.actor_ids = [] → movieActorIds (create_movie db mc).2 db.next_movie_id = [])) := by
  refine ⟨?_, ?_, ?_, ?_, ?_⟩
  · intro h1 h2
    refine ⟨?_, rfl, ?_⟩
    · unfold get_actor create_actor
      apply find?_append_fresh
      · intro a hmem
        simp [h1 a hmem]
      · simp
    · exact List.filter_eq_nil_iff.mpr (fun p hp => by
        have hp2 : p ∈ db.movie_actors := hp
        show ¬(p.2 == db.next_actor_id) = true
        simp [h2 p hp2])
  · intro h1 h2
    refine ⟨?_, rfl, ?_⟩
    · unfold get_director create_director
      apply find?_append_fresh
      · intro d hmem
        simp [h1 d hmem]
      · simp
    · exact List.filter_eq_nil_iff.mpr (fun m hm => by
        have hm2 : m ∈ db.movies := hm
        show ¬(m.director_id == some db.next_director_id) = true
        simp [h2 m hm2])
  · intro h1 h2 h3
    have hany : (db.genres.any fun r => r.name == gc.name) = false := by
      rw [List.any_eq_false]
      intro r hr
      simp [h2 r hr]
    refine ⟨{ db with genres := db.genres ++ [⟨db.next_genre_id, gc.name, gc.description⟩], next_genre_id := db.next_genre_id + 1 }, ?_, ?_, ?_⟩
    · unfold create_genre
      simp [hany]
    · unfold get_genre
      apply find?_append_fresh
      · intro r hmem
        simp [h1 r hmem]
      · simp
    · exact List.filter_eq_nil_iff.mpr (fun p hp => by simp [h3 p hp])
  · intro h1
    refine ⟨?_, rfl⟩
    unfold get_review create_review
    apply find?_append_fresh
    · intro r hmem
      simp [h1 r hmem]
    · simp
  · intro h1 h2 h3
    refine ⟨?_, rfl, ?_, ?_⟩
    · unfold get_movie create_movie
      apply find?_append_fresh
      · intro m hmem
        simp [h1 m hmem]
      · simp
    · intro he
      simp only [movieGenreIds, create_movie, he, List.isEmpty_nil, if_pos]
      simp only [List.map_nil, List.append_nil]
      exact List.map_eq_nil_iff.mpr
        (List.filter_eq_nil_iff.mpr (fun p hp => by simp [h2 p hp]))
    · intro he
      simp only [movieActorIds, create_movie, he, List.isEmpty_nil, if_pos]
      simp only [List.map_nil, List.append_nil]
      exact List.map_eq_nil_iff.mpr
        (List.filter_eq_nil_iff.mpr (fun p hp => by simp [h3 p hp]))

/-- C8: for every entity type and every id, after delete(id) a get(id)
returns the not-found sentinel; delete returns true exactly when the id
existed and changes nothing when it did not; and each delete removes only
that entity's own row plus its association-table memberships: after an
actor (resp. genre) delete no movie_actors (resp. movie_genres) row
references the deleted id, while every association row not referencing it
survives (a director delete deletes no other row — it only nullifies the
foreign key on its movies, whose count is unchanged; the movie delete's
owned-review cascade is treated separately). -/
theorem delete_then_get_absent (db : DB) (i : Nat) :
    (get_actor (delete_actor db i).2 i = none ∧
     (delete_actor db i).1 = (get_actor db i).isSome ∧
     (get_actor db i = none → (delete_actor db i).2 = db) ∧
     (delete_actor db i).2.movies = db.movies ∧
     (delete_actor db i).2.directors = db.directors ∧
     (delete_actor db i).2.genres = db.genres ∧
     (delete_actor db i).2.reviews = db.reviews ∧
     (delete_actor db i).2.movie_genres = db.movie_genres ∧
     ((get_actor db i).isSome → ∀ p ∈ (delete_actor db i).2.movie_actors, p.2 ≠ i) ∧
     (∀ p ∈ db.movie_actors, p.2 ≠ i → p ∈ (delete_actor db i).2.movie_actors)) ∧
    (get_director (delete_director db i).2 i = none ∧
     (delete_director db i).1 = (get_director db i).isSome ∧
     (get_director db i = none → (delete_director db i).2 = db) ∧
     (delete_director db i).2.actors = db.actors ∧
     (delete_director db i).2.genres = db.genres ∧
     (delete_director db i).2.reviews = db.reviews ∧
     (delete_director db i).2.movie_genres = db.movie_genres ∧
     (delete_director db i).2.movie_actors = db.movie_actors ∧
     (delete_director db i).2.movies.length = db.movies.length) ∧
    (get_genre (delete_genre db i).2 i = none ∧
     (delete_genre db i).1 = (get_genre db i).isSome ∧
     (get_genre db i = none → (delete_genre db i).2 = db) ∧
     (delete_genre db i).2.movies = db.movies ∧
     (delete_genre db i).2.actors = db.actors ∧
     (delete_genre db i).2.directors = db.directors ∧
     (delete_genre db i).2.reviews = db.reviews ∧
     (delete_genre db i).2.movie_actors = db.movie_actors ∧
     ((get_genre db i).isSome → ∀ p ∈ (delete_genre db i).2.movie_genres, p.2 ≠ i) ∧
     (∀ p ∈ db.movie_genres, p.2 ≠ i → p ∈ (delete_genre db i).2.movie_genres)) ∧
    (get_movie (delete_movie db i).2 i = none ∧
     (delete_movie db i).1 = (get_movie db i).isSome ∧
     (get_movie db i = none → (delete_movie db i).2 = db)) ∧
    (get_review (delete_review db i).2 i = none ∧
     (delete_review db i).1 = (get_review db i).isSome ∧
     (get_review db i = none → (delete_review db i).2 = db) ∧
     (delete_review db i).2.movies = db.movies ∧
     (delete_review db i).2.actors = db.actors ∧
     (delete_review db i).2.directors = db.directors ∧
     (delete_review db i).2.genres = db.genres ∧
     (delete_review db i).2.movie_genres = db.movie_genres ∧
     (delete_review db i).2.movie_actors = db.movie_actors) := by
  refine ⟨?_, ?_, ?_, ?_, ?_⟩
  · unfold get_actor delete_actor
    cases hf : db.actors.find? (fun a => a.id == i) with
    | none =>
      refine ⟨hf, rfl, fun _ => rfl, rfl, rfl, rfl, rfl, rfl, fun h => ?_, fun p hp _ => hp⟩
      simp at h
    | some a =>
      refine ⟨find?_filter_not _ _, rfl, fun h => Option.noConfusion h, rfl, rfl, rfl, rfl, rfl,
        fun _ p hp => ?_, fun p hp hne => ?_⟩
      · simpa using (List.mem_filter.mp hp).2
      · exact List.mem_filter.mpr ⟨hp, by simpa using hne⟩
  · unfold get_director delete_director
    cases hf : db.directors.find? (fun d => d.id == i) with
    | none => exact ⟨hf, rfl, fun _ => rfl, rfl, rfl, rfl, rfl, rfl, rfl⟩
    | some d =>
      exact ⟨find?_filter_not _ _, rfl, fun h => Option.noConfusion h, rfl, rfl, rfl, rfl, rfl,
        List.length_map _ _⟩
  · unfold get_genre delete_genre
    cases hf : db.genres.find? (fun g => g.id == i) with
    | none =>
      refine ⟨hf, rfl, fun _ => rfl, rfl, rfl, rfl, rfl, rfl, fun h => ?_, fun p hp _ => hp⟩
      simp at h
    | some g =>
      refine ⟨find?_filter_not _ _, rfl, fun h => Option.noConfusion h, rfl, rfl, rfl, rfl, rfl,
        fun _ p hp => ?_, fun p hp hne => ?_⟩
      · simpa using (List.mem_filter.mp hp).2
      · exact List.mem_filter.mpr ⟨hp, by simpa using hne⟩
  · unfold get_movie delete_movie
    cases hf : db.movies.find? (fun m => m.id == i) with
    | none => exact ⟨hf, rfl, fun _ => rfl⟩
    | some m => exact ⟨find?_filter_not _ _, rfl, fun h => Option.noConfusion h⟩
  · unfold get_review delete_review
    cases hf : db.reviews.find? (fun r => r.id == i) with
    | none => exact ⟨hf, rfl, fun _ => rfl, rfl, rfl, rfl, rfl, rfl, rfl⟩
    | some r =>
      exact ⟨find?_filter_not _ _, rfl, fun h => Option.noConfusion h, rfl, rfl, rfl, rfl, rfl, rfl⟩

/-- C9: genre name uniqueness is an invariant of the store: creating a
second genre with an already-existing name is rejected with a constraint
error — it does not silently succeed — and a successful create preserves
pairwise-distinct genre names. -/
theorem genre_name_uniqueness (db : DB) (g : GenreCreate) :
    ((∃ r ∈ db.genres, r.name = g.name) →
      create_genre db g = .error "UNIQUE constraint failed: genres.name") ∧
    (∀ row db2, create_genre db g = .ok (row, db2) →
      GenreNamesUnique db → GenreNamesUnique db2) := by
  constructor
  · rintro ⟨r, hr, hname⟩
    unfold create_genre
    have hany : (db.genres.any fun r2 => r2.name == g.name) = true :=
      List.any_eq_true.mpr ⟨r, hr, by simp [hname]⟩
    simp [hany]
  · intro row db2 hok huniq
    unfold create_genre at hok
    by_cases hany : (db.genres.any fun r2 => r2.name == g.name) = true
    · simp [hany] at hok
    · have hany2 : (db.genres.any fun r2 => r2.name == g.name) = false := by
        simpa using hany
      simp only [hany2, Bool.false_eq_true, if_false, Except.ok.injEq, Prod.mk.injEq] at hok
      obtain ⟨hrow, hdb2⟩ := hok
      subst hdb2
      unfold GenreNamesUnique at huniq ⊢
      rw [List.map_append, List.nodup_append]
      refine ⟨huniq, List.nodup_singleton _, ?_⟩
      intro x hx hxmem
      have hxg : x = g.name := by simpa using hxmem
      obtain ⟨r2, hr2, hr2name⟩ := List.mem_map.mp hx
      have := List.any_eq_false.mp hany2 r2 hr2
      simp [hr2name, hxg] at this

/-- C1 witness: the sparse-patch theorem instantiated at a concrete store
and payload. -/
theorem movie_update_is_sparse_patch_witness :
    get_movie sampleDB 1 = some ⟨1, "Inception", 2010, none, none, some 0, none, some 1⟩ ∧
    (update_movie sampleDB 1 sampleMU).1
      = some (applyMovieUpdate sampleMU ⟨1, "Inception", 2010, none, none, some 0, none, some 1⟩) ∧
    movieGenreIds (update_movie sampleDB 1 sampleMU).2 1
      = (resolvedGenres sampleDB [2, 99]).map (fun g => g.id) := by
  obtain ⟨h1, h2, _, _, _, _, _, _, _, hG, _, _, _⟩ :=
    movie_update_is_sparse_patch sampleDB 1 sampleMU
      ⟨1, "Inception", 2010, none, none, some 0, none, some 1⟩ (by decide)
  exact ⟨by decide, h1, hG [2, 99] rfl⟩

/-- C2 witness: full-replace update applied at a concrete store for an
existing actor, a missing actor id, and a genre rename. -/
theorem nonmovie_update_is_full_replace_witness :
    (update_actor sampleDB 1 ⟨"Leonardo", some "b", none, none, some "US"⟩).1
      = some ⟨1, "Leonardo", some "b", none, none, some "US"⟩ ∧
    update_actor sampleDB 99 ⟨"X", none, none, none, none⟩ = (none, sampleDB) ∧
    (∃ db2, update_genre sampleDB 2 ⟨"Thriller", none⟩ = .ok (some ⟨2, "Thriller", none⟩, db2) ∧
      get_genre db2 2 = some ⟨2, "Thriller", none⟩ ∧
      db2.movie_genres = sampleDB.movie_genres) := by
  refine ⟨?_, ?_, ?_⟩
  · exact ((nonmovie_update_is_full_replace sampleDB 1 1 2
      ⟨"Leonardo", some "b", none, none, some "US"⟩ ⟨"N", none, none, none, none⟩
      ⟨"Thriller", none⟩).1.1 ⟨1, "Leo", none, none, none, none⟩ (by decide)).1
  · exact (nonmovie_update_is_full_replace sampleDB 99 1 2
      ⟨"X", none, none, none, none⟩ ⟨"N", none, none, none, none⟩
      ⟨"T", none⟩).1.2 (by decide)
  · exact (nonmovie_update_is_full_replace sampleDB 1 1 2
      ⟨"L", none, none, none, none⟩ ⟨"N", none, none, none, none⟩
      ⟨"Thriller", none⟩).2.2.1 ⟨2, "Drama", none⟩ (by decide) (by decide)

/-- C3 witness: the amended AND-semantics theorem instantiated with
nonzero genre_id 1 and release_year 2010. -/
theorem filter_movies_and_semantics_witness :
    (∀ m ∈ filter_movies sampleDB (some 1) none none none 0 100,
        movieHasGenre sampleDB m.id 1 = true) ∧
    filter_movies sampleDB (some 1) none (some 2010) none 0 sampleDB.movies.length
      = sampleDB.movies.filter
          (fun m => movieHasGenre sampleDB m.id 1 && m.release_year == 2010) := by
  exact filter_movies_and_semantics sampleDB 1 2010 0 100 (by decide) (by decide)

/-- C4 witness: deleting movie 1 (which owns a review) and a missing id. -/
theorem movie_delete_cascades_witness :
    (get_movie sampleDB 1).isSome ∧
    (delete_movie sampleDB 1).1 = true ∧
    get_movie_reviews (delete_movie sampleDB 1).2 1 0 100 = [] ∧
    delete_movie sampleDB 99 = (false, sampleDB) := by
  obtain ⟨hfound, _⟩ := movie_delete_cascades sampleDB 1 0 100
  obtain ⟨ht, _, hrev, _, _, _⟩ := hfound (by decide)
  exact ⟨by decide, ht, hrev, (movie_delete_cascades sampleDB 99 0 100).2 (by decide)⟩

/-- C5 witness: the shared actor reaches genre 1 through both movies yet
occurs exactly once in the result. -/
theorem filter_actors_by_genre_dedup_witness :
    (actorGenreJoin sampleDB 1).dedup.length ≤ 100 ∧
    (filter_actors_by_genre sampleDB 1 0 100).count ⟨1, "Leo", none, none, none, none⟩ = 1 := by
  obtain ⟨_, hcount⟩ := filter_actors_by_genre_dedup sampleDB 1 100 (by decide)
  exact ⟨by decide, hcount _ (by decide)⟩

/-- C6 witness: creating a movie with dangling director 42, dangling
genre 99 and dangling actor 77 attaches exactly the resolved rows. -/
theorem movie_create_accepts_dangling_refs_witness :
    (create_movie sampleDB sampleMC).1.director_id = some 42 ∧
    movieGenreIds (create_movie sampleDB sampleMC).2 sampleDB.next_movie_id = [1] ∧
    movieActorIds (create_movie sampleDB sampleMC).2 sampleDB.next_movie_id = [1] := by
  obtain ⟨hd, _, hg, ha⟩ :=
    movie_create_accepts_dangling_refs sampleDB sampleMC (by decide) (by decide) (by decide)
  exact ⟨hd, hg.trans (by decide), ha.trans (by decide)⟩

/-- C7 witness: the round trip on the empty store for an actor and a
genre. -/
theorem create_then_get_roundtrip_witness :
    get_actor (create_actor emptyDB ⟨"A", none, none, none, none⟩).2 1
      = some ⟨1, "A", none, none, none, none⟩ ∧
    (∃ db2, create_genre emptyDB ⟨"G", none⟩ = .ok (⟨1, "G", none⟩, db2) ∧
      get_genre db2 1 = some ⟨1, "G", none⟩ ∧
      db2.movie_genres.filter (fun p => p.2 == 1) = []) := by
  obtain ⟨hA, _, hG, _, _⟩ := create_then_get_roundtrip emptyDB
    ⟨"A", none, none, none, none⟩ ⟨"D", none, none, none, none⟩ ⟨"G", none⟩
    ⟨"r", 5, none, 1⟩ ⟨"M", 2000, none, none, some 0, none, none, [], []⟩
  obtain ⟨hA1, _, _⟩ := hA (by decide) (by decide)
  exact ⟨hA1, hG (by decide) (by decide) (by decide)⟩

/-- C8 witness: delete-then-get on concrete ids, existing and missing;
the deleted actor's and genre's own association memberships are gone. -/
theorem delete_then_get_absent_witness :
    get_actor (delete_actor sampleDB 1).2 1 = none ∧
    (delete_actor sampleDB 1).1 = true ∧
    (∀ p ∈ (delete_actor sampleDB 1).2.movie_actors, p.2 ≠ 1) ∧
    (∀ p ∈ (delete_genre sampleDB 1).2.movie_genres, p.2 ≠ 1) ∧
    (delete_genre sampleDB 99).2 = sampleDB ∧
    get_review (delete_review sampleDB 1).2 1 = none := by
  have H := delete_then_get_absent sampleDB 1
  have H99 := delete_then_get_absent sampleDB 99
  obtain ⟨hA1, hA2, _, _, _, _, _, _, hA9, _⟩ := H.1
  obtain ⟨_, _, _, _, _, _, _, _, hG9, _⟩ := H.2.2.1
  refine ⟨hA1, hA2.trans (by decide), hA9 (by decide), hG9 (by decide), ?_, H.2.2.2.2.1⟩
  exact H99.2.2.1.2.2.1 (by decide)

/-- C9 witness: creating "Action" again is refused; creating "Comedy"
succeeds and keeps the genre names pairwise distinct. -/
theorem genre_name_uniqueness_witness :
    create_genre sampleDB ⟨"Action", none⟩ = .error "UNIQUE constraint failed: genres.name" ∧
    GenreNamesUnique comedyDB := by
  refine ⟨(genre_name_uniqueness sampleDB ⟨"Action", none⟩).1 ⟨⟨1, "Action", none⟩, by decide, rfl⟩, ?_⟩
  exact (genre_name_uniqueness sampleDB ⟨"Comedy", none⟩).2 ⟨3, "Comedy", none⟩ comedyDB
    (by rfl) (by unfold GenreNamesUnique; decide)
